import Mathlib

/-!
Verification of the kid_readout measurement model and instrument drivers.

The Python sources are shallowly embedded in Lean.  numpy arrays become lists
over the rationals, complex values become pairs, NaN-capable float entries
become Option values with none standing for NaN, and raised exceptions become
an explicit Except status component.  Library routines living outside the
repository (numpy primitives, the matplotlib mlab spectral estimators, the
lmfit resonator models) enter the model either as faithful translations of
their documented semantics (argsort, searchsorted, nanmean, broadcasting) or
as abstract parameters when only the wiring around them is claimed.
-/

namespace Sim

/-- A serial command relevant to the claims: the SIM921 FREQ excitation
command with its argument in Hz (kid_readout/equipment/sim.py line 282). -/
inductive Command where
  | FREQ (f : ℚ)
deriving DecidableEq

/-- State of a SIM921 resistance bridge: the log of commands written to its
serial link (sim.py, class SIM921). -/
structure SIM921 where
  sent : List Command
deriving DecidableEq

/-- Minimum excitation frequency in Hz (sim.py line 264). -/
def SIM921.minimum_frequency : ℚ := 1.95

/-- Maximum excitation frequency in Hz (sim.py line 265). -/
def SIM921.maximum_frequency : ℚ := 61.1

/-- The SIM921 excitation frequency setter (sim.py lines 278-282): raise
ValueError, before anything is written to the serial link, when the requested
frequency is outside the allowed range; otherwise send the FREQ command.  The
first component is the device state afterwards, the second the raise status. -/
def SIM921.set_frequency (dev : SIM921) (f : ℚ) : SIM921 × Except Unit Unit :=
  if ¬ (SIM921.minimum_frequency ≤ f ∧ f ≤ SIM921.maximum_frequency) then
    (dev, Except.error ())
  else
    ({ dev with sent := dev.sent ++ [Command.FREQ f] }, Except.ok ())

/-- A calibration curve (sim.py, class CalibrationCurve).  The identification
and format strings are abstract tokens here; the constructor uppercases the
identification on both the stored and the written side, so comparing tokens is
faithful. -/
structure CalibrationCurve where
  sensor : List ℚ
  temperature : List ℚ
  identification : ℕ
  format : ℕ
deriving DecidableEq

/-- Maximum fractional error accepted by validate_curve (sim.py line 194). -/
def maximum_fractional_error : ℚ := 1e-4

/-- One entry of the validate_curve tolerance test:
abs(stored / written - 1) < maximum_fractional_error.  Rational division by
zero yields 0 and the test fails, matching the float comparison in which a
zero written value produces inf or nan and compares false. -/
def withinTol (s c : ℚ) : Bool := |s / c - 1| < maximum_fractional_error

/-- numpy elementwise comparison of two 1-D arrays under broadcasting, reduced
by np.all: arrays of equal length compare pointwise, a length-one array is
broadcast against the other, and any other shape combination raises ValueError
(modelled as none). -/
def broadcastAll (s c : List ℚ) : Option Bool :=
  if s.length = c.length then some ((List.zipWith withinTol s c).all id)
  else if s.length = 1 then some (c.all fun y => withinTol (s.getD 0 0) y)
  else if c.length = 1 then some (s.all fun x => withinTol x (c.getD 0 0))
  else none

/-- A SIM thermometer module together with the curves its hardware currently
stores: dev.stored n is the curve that curve_info and read_curve reconstruct
for slot n (sim.py, class SIMThermometer). -/
structure SIMThermometer where
  maximum_temperature_points : ℕ
  stored : ℕ → CalibrationCurve

/-- SIMThermometer.validate_curve (sim.py lines 233-247): compare the stored
curve against the written one; a ValueError raised by the numpy shape
comparison is caught and turned into False. -/
def SIMThermometer.validate_curve (dev : SIMThermometer) (number : ℕ)
    (curve : CalibrationCurve) : Bool :=
  match broadcastAll (dev.stored number).sensor curve.sensor,
        broadcastAll (dev.stored number).temperature curve.temperature with
  | some bs, some bt =>
      bs && bt && ((dev.stored number).identification == curve.identification)
        && ((dev.stored number).format == curve.format)
  | _, _ => false

/-- SIMThermometer.write_curve (sim.py lines 219-231).  The hardware response
to the CINI initialization and the CAPT point writes is abstracted as hw: the
curve that ends up stored may differ from the curve sent, because points can
be dropped or rounded on the serial link.  The second component records a
raised SIMError. -/
def SIMThermometer.write_curve (hw : CalibrationCurve → CalibrationCurve)
    (dev : SIMThermometer) (number : ℕ) (curve : CalibrationCurve) :
    SIMThermometer × Except Unit Unit :=
  if dev.maximum_temperature_points < curve.sensor.length then
    (dev, Except.error ())
  else
    let dev' : SIMThermometer :=
      { dev with stored := Function.update dev.stored number (hw curve) }
    if dev'.validate_curve number curve then (dev', Except.ok ())
    else (dev', Except.error ())

/-- Device for the C10 counterexample: slot 1 stores a one-point curve. -/
def cexDev : SIMThermometer :=
  { maximum_temperature_points := 225
    stored := fun _ =>
      { sensor := [1], temperature := [1], identification := 0, format := 0 } }

/-- Written curve for the C10 counterexample: two points within the fractional
tolerance of the single stored value. -/
def cexCurve : CalibrationCurve :=
  { sensor := [1, 100001 / 100000], temperature := [1, 1]
    identification := 0, format := 0 }

end Sim

namespace Basic

/-- A complex value as a pair of rationals (re, im). -/
abbrev Cplx := ℚ × ℚ

/-- One sample of the demodulated s21 data; none models a NaN entry (numpy
treats a complex sample as NaN when either part is NaN, and NaN samples enter
the arrays as whole-sample fills). -/
abbrev Sample := Option Cplx

/-- A real value that can be NaN, such as one entry of the x or q series. -/
abbrev RVal := Option ℚ

/-- Time-ordered data from a single channel (basic.py, class SingleStream and
its base RoachStream).  The tone frequency and the stream sample rate are
computed from roach_state and tone_bin by the roach.calculate module in the
source; they enter the model as stored values.  The state dictionary is an
abstract token. -/
structure SingleStream where
  frequency : ℚ
  epoch : ℚ
  stream_sample_rate : ℚ
  s21_raw : List Sample
  sequence_start_number : Option ℕ
  state : ℕ
deriving DecidableEq

/-- RoachStream.sample_time (basic.py lines 121-125): the time of each sample
relative to the first sample, arange(n) over the sample rate. -/
def SingleStream.sample_time (st : SingleStream) : List ℚ :=
  (List.range st.s21_raw.length).map (fun i => (i : ℚ) / st.stream_sample_rate)

/-- np.searchsorted with side left: on a sorted array the insertion index is
the count of entries strictly below v. -/
def searchsorted_left (xs : List ℚ) (v : ℚ) : ℕ := xs.countP (fun t => t < v)

/-- np.searchsorted with side right: on a sorted array the insertion index is
the count of entries at most v. -/
def searchsorted_right (xs : List ℚ) (v : ℚ) : ℕ := xs.countP (fun t => t ≤ v)

/-- RoachStream.epochs (basic.py lines 214-233) for one channel: slice the
stream to the samples selected by searchsorted over the absolute sample
times, side left for start and side right for stop, and set the new epoch to
the absolute time of the sample at the start index.  The source reads
sample_time at start_index and raises IndexError when start_index is past the
end; the model returns 0 from getD there, a case no claim touches. -/
def SingleStream.epochs (st : SingleStream) (start stop : ℚ) : SingleStream :=
  let times := st.sample_time.map (fun t => st.epoch + t)
  let start_index := searchsorted_left times start
  let stop_index := searchsorted_right times stop
  { st with
    epoch := st.epoch + st.sample_time.getD start_index 0
    sequence_start_number := none
    s21_raw := (st.s21_raw.drop start_index).take (stop_index - start_index) }

/-- Mean of a list of rationals; 0 for the empty list. -/
def mean (xs : List ℚ) : ℚ := xs.sum / xs.length

/-- Population variance of a list of rationals: the square of the numpy std
with the default ddof of 0. -/
def rvar (xs : List ℚ) : ℚ := mean (xs.map (fun x => (x - mean xs) ^ 2))

/-- np.nanmean of a complex channel (RoachStream.s21_raw_mean, basic.py line
162): the mean over the samples that are not NaN, or NaN when there are
none. -/
def s21_raw_mean (chan : List Sample) : Option Cplx :=
  let good := chan.filterMap id
  if good.isEmpty then none
  else some (mean (good.map Prod.fst), mean (good.map Prod.snd))

/-- RoachStream.s21_raw_mean_error for one channel (basic.py lines 164-189).
The result value (vr, vi, n) stands for (sqrt vr + i sqrt vi) / sqrt n: the
two squared nanstd values and the good-sample count are kept ahead of the
square roots and the division, which stay outside the rationals; none stands
for NaN.  The Except error outcome stands for the float division by zero,
producing an exception or infinity, that the replacement of a zero count by
NaN exists to avoid: NaN operands propagate to NaN without it. -/
def s21_raw_mean_error (chan : List Sample) : Except Unit (Option (ℚ × ℚ × ℕ)) :=
  let good := chan.filterMap id
  let num_good := chan.countP (fun s => s.isSome)
  let num_good_or_nan : Option ℕ := if num_good = 0 then none else some num_good
  let var_re : Option ℚ :=
    if good.isEmpty then none else some (rvar (good.map Prod.fst))
  let var_im : Option ℚ :=
    if good.isEmpty then none else some (rvar (good.map Prod.snd))
  match var_re, var_im, num_good_or_nan with
  | some vr, some vi, some n =>
      if n = 0 then Except.error () else Except.ok (some (vr, vi, n))
  | _, _, _ => Except.ok none

/-- RoachStream.s21_point (basic.py lines 191-198): one point per stream,
currently the nanmean. -/
def SingleStream.s21_point (st : SingleStream) : Option Cplx := s21_raw_mean st.s21_raw

/-- RoachStream.s21_point_error (basic.py lines 200-207): currently
s21_raw_mean_error. -/
def SingleStream.s21_point_error (st : SingleStream) : Except Unit (Option (ℚ × ℚ × ℕ)) :=
  s21_raw_mean_error st.s21_raw

/-- np.argsort of a list of keys: a permutation of the index range that sorts
the keys in non-decreasing order.  numpy promises a sorting permutation, not
a stable one, for the default kind; insertion sort produces one. -/
def argsort (keys : List ℚ) : List ℕ :=
  List.insertionSort (fun i j => keys.getD i 0 ≤ keys.getD j 0)
    (List.range keys.length)

/-- numpy fancy indexing xs[order], with a default for out-of-range indices,
which argsort never produces. -/
def permuteBy {α : Type} (dflt : α) (order : List ℕ) (xs : List α) : List α :=
  order.map (fun i => xs.getD i dflt)

/-- A resonator model fitted to sweep data.  The lmfit_resonator classes are
not under src; only the operations the measurement pipeline uses appear.
remove_background divides the fitted background out of an s21 value at a
given frequency, and invert maps a background-free s21 value to the pair
(x, q) of fractional frequency shift and inverse internal quality factor;
both act elementwise on arrays. -/
structure Resonator where
  remove_background : ℚ → Cplx → Cplx
  invert : Cplx → ℚ × ℚ

/-- The fit entry point of a resonator model class (basic.py lines 722-725):
called on the frequency, s21, and errors arrays it performs the
least-squares fit and returns the fitted resonator. -/
abbrev FitModel := List ℚ → List (Option Cplx) →
  List (Except Unit (Option (ℚ × ℚ × ℕ))) → Resonator

/-- A single-channel sweep (basic.py, class SingleSweep): streams at
different frequencies plus the cached fitted resonator; the memoized
resonator property and fit_resonator both store the fit in an attribute. -/
structure SingleSweep where
  streams : List SingleStream
  res_cache : Option Resonator

/-- SingleSweep.ascending_order (basic.py lines 667-670): argsort of the
stream frequencies. -/
def SingleSweep.ascending_order (ss : SingleSweep) : List ℕ :=
  argsort (ss.streams.map SingleStream.frequency)

/-- SingleSweep.frequency (basic.py lines 672-675): the frequencies of all
data points in ascending order. -/
def SingleSweep.frequency (ss : SingleSweep) : List ℚ :=
  permuteBy 0 ss.ascending_order (ss.streams.map SingleStream.frequency)

/-- SingleSweep.s21_point (basic.py lines 682-685), in ascending frequency
order. -/
def SingleSweep.s21_point (ss : SingleSweep) : List (Option Cplx) :=
  permuteBy none ss.ascending_order (ss.streams.map SingleStream.s21_point)

/-- SingleSweep.s21_point_error (basic.py lines 687-690), in ascending
frequency order. -/
def SingleSweep.s21_point_error (ss : SingleSweep) :
    List (Except Unit (Option (ℚ × ℚ × ℕ))) :=
  permuteBy (Except.ok none) ss.ascending_order (ss.streams.map SingleStream.s21_point_error)

/-- SingleSweep.s21_raw (basic.py lines 692-695): the raw streams stacked in
ascending frequency order. -/
def SingleSweep.s21_raw (ss : SingleSweep) : List (List Sample) :=
  permuteBy [] ss.ascending_order (ss.streams.map SingleStream.s21_raw)

/-- SingleSweep.fit_resonator (basic.py lines 711-725): build the model from
the ascending-order frequency, s21_point, and s21_point_error arrays, fit
it, store it, and return it. -/
def SingleSweep.fit_resonator (m : FitModel) (ss : SingleSweep) :
    SingleSweep × Resonator :=
  let r := m ss.frequency ss.s21_point ss.s21_point_error
  ({ ss with res_cache := some r }, r)

/-- The memoized SingleSweep.resonator property (basic.py lines 706-709):
the result of the last call to fit_resonator, fitting once on first
access. -/
def SingleSweep.resonator (m : FitModel) (ss : SingleSweep) :
    SingleSweep × Resonator :=
  match ss.res_cache with
  | some r => (ss, r)
  | none => ss.fit_resonator m

/-- Simultaneously sampled multi-channel data (basic.py, class StreamArray):
one single-channel stream per tone index. -/
structure StreamArray where
  chans : List SingleStream

/-- A list of StreamArrays (basic.py, class SweepArray). -/
structure SweepArray where
  stream_arrays : List StreamArray

/-- SweepArray.ascending_order (basic.py lines 523-526): argsort of the
concatenated per-array frequency vectors. -/
def SweepArray.ascending_order (sa : SweepArray) : List ℕ :=
  argsort ((sa.stream_arrays.map
    (fun a => a.chans.map SingleStream.frequency)).flatten)

/-- SweepArray.frequency (basic.py lines 528-531), in ascending order. -/
def SweepArray.frequency (sa : SweepArray) : List ℚ :=
  permuteBy 0 sa.ascending_order ((sa.stream_arrays.map
    (fun a => a.chans.map SingleStream.frequency)).flatten)

/-- SweepArray.s21_point (basic.py lines 538-541), in ascending frequency
order. -/
def SweepArray.s21_point (sa : SweepArray) : List (Option Cplx) :=
  permuteBy none sa.ascending_order ((sa.stream_arrays.map
    (fun a => a.chans.map SingleStream.s21_point)).flatten)

/-- SweepArray.s21_point_error (basic.py lines 543-546), in ascending
frequency order. -/
def SweepArray.s21_point_error (sa : SweepArray) :
    List (Except Unit (Option (ℚ × ℚ × ℕ))) :=
  permuteBy (Except.ok none) sa.ascending_order ((sa.stream_arrays.map
    (fun a => a.chans.map SingleStream.s21_point_error)).flatten)

/-- SweepArray.s21_raw (basic.py lines 548-551): the vstacked raw streams in
ascending frequency order. -/
def SweepArray.s21_raw (sa : SweepArray) : List (List Sample) :=
  permuteBy [] sa.ascending_order ((sa.stream_arrays.map
    (fun a => a.chans.map SingleStream.s21_raw)).flatten)

/-- The concatenated channel streams of a SweepArray, in original order. -/
def SweepArray.all_streams (sa : SweepArray) : List SingleStream :=
  (sa.stream_arrays.map StreamArray.chans).flatten

/-- A sweep paired with a stream taken at one frequency (basic.py, class
SingleSweepStream). -/
structure SingleSweepStream where
  sweep : SingleSweep
  stream : SingleStream

/-- The SingleSweepStream.resonator property (basic.py lines 869-871):
exactly the resonator of the sweep. -/
def SingleSweepStream.resonator (m : FitModel) (sss : SingleSweepStream) :
    Resonator :=
  (sss.sweep.resonator m).2

/-- SingleSweepStream.stream_s21_normalized (basic.py lines 911-913): the raw
stream data with the background removed by the resonator fitted to the sweep,
elementwise at the stream frequency; a NaN sample stays NaN. -/
def SingleSweepStream.stream_s21_normalized (m : FitModel)
    (sss : SingleSweepStream) : List Sample :=
  sss.stream.s21_raw.map (Option.map
    ((sss.sweep.resonator m).2.remove_background sss.stream.frequency))

/-- Elementwise resonator inversion of one normalized sample into its (x, q)
pair; a NaN sample inverts to NaN in both coordinates. -/
def invertSample (r : Resonator) (s : Sample) : RVal × RVal :=
  match s with
  | none => (none, none)
  | some z => (some (r.invert z).1, some (r.invert z).2)

/-- The x_raw half of SingleSweepStream.set_raw_q_and_x (basic.py lines
1004-1014): the fractional frequency shift from resonator.invert applied to
the normalized stream. -/
def SingleSweepStream.x_raw (m : FitModel) (sss : SingleSweepStream) :
    List RVal :=
  (sss.stream_s21_normalized m).map
    (fun s => (invertSample (sss.resonator m) s).1)

/-- The q_raw half of SingleSweepStream.set_raw_q_and_x (basic.py lines
1004-1014): the inverse internal quality factor from resonator.invert applied
to the normalized stream. -/
def SingleSweepStream.q_raw (m : FitModel) (sss : SingleSweepStream) :
    List RVal :=
  (sss.stream_s21_normalized m).map
    (fun s => (invertSample (sss.resonator m) s).2)

/-- The window length used by deglitch (basic.py line 888):
int(2 ** ceil(log2(window_in_seconds * stream_sample_rate))).  Int.clog is
the ceiling of the base-2 logarithm; the int truncation sends the fractional
powers arising from a negative ceiling to zero. -/
def window_samples (v : ℚ) : ℕ :=
  if 0 ≤ Int.clog 2 v then 2 ^ (Int.clog 2 v).toNat else 0

/-- The despike module is not under src; its two entry points enter the model
as an abstract library whose calls can raise.  deglitch_mask_mad builds the
boolean glitch mask from the raw x series by windowed
median-absolute-deviation thresholding, given the threshold, the window
length in samples, and the mask extension; mask_glitches replaces masked
stretches of a real or complex valued series. -/
structure DespikeLib where
  deglitch_mask_mad : List RVal → ℚ → ℕ → ℕ → Except Unit (List Bool)
  mask_real : List RVal → List Bool → ℕ → Except Unit (List RVal)
  mask_cplx : List Sample → List Bool → ℕ → Except Unit (List Sample)

/-- The attributes set by SingleSweepStream.deglitch. -/
structure DeglitchResult where
  glitch_mask : List Bool
  number_of_masked_samples : ℕ
  x : List RVal
  q : List RVal
  stream_s21_normalized_deglitched : List Sample
deriving DecidableEq

/-- The body of the try block of deglitch (basic.py lines 891-898): compute
the mask, count the masked samples, and mask the three series. -/
def deglitchTry (lib : DespikeLib) (m : FitModel) (sss : SingleSweepStream)
    (threshold window_in_seconds : ℚ) (mask_extend_samples : ℕ) :
    Except Unit DeglitchResult :=
  match lib.deglitch_mask_mad (sss.x_raw m) threshold
    (window_samples (window_in_seconds * sss.stream.stream_sample_rate))
    mask_extend_samples with
  | Except.error u => Except.error u
  | Except.ok mask =>
    match lib.mask_real (sss.x_raw m) mask
      (window_samples (window_in_seconds * sss.stream.stream_sample_rate)) with
    | Except.error u => Except.error u
    | Except.ok mx =>
      match lib.mask_real (sss.q_raw m) mask
        (window_samples (window_in_seconds * sss.stream.stream_sample_rate)) with
      | Except.error u => Except.error u
      | Except.ok mq =>
        match lib.mask_cplx (sss.stream_s21_normalized m) mask
          (window_samples
            (window_in_seconds * sss.stream.stream_sample_rate)) with
        | Except.error u => Except.error u
        | Except.ok ms =>
          Except.ok { glitch_mask := mask
                      number_of_masked_samples := mask.countP id
                      x := mx, q := mq
                      stream_s21_normalized_deglitched := ms }

/-- SingleSweepStream.deglitch (basic.py lines 887-909): on any exception in
the try block the mask becomes all False, the count 0, and the deglitched
series fall back to the raw ones. -/
def deglitch (lib : DespikeLib) (m : FitModel) (sss : SingleSweepStream)
    (threshold window_in_seconds : ℚ) (mask_extend_samples : ℕ) :
    DeglitchResult :=
  match deglitchTry lib m sss threshold window_in_seconds mask_extend_samples with
  | Except.ok r => r
  | Except.error _ =>
      { glitch_mask := List.replicate (sss.x_raw m).length false
        number_of_masked_samples := 0
        x := sss.x_raw m
        q := sss.q_raw m
        stream_s21_normalized_deglitched := sss.stream_s21_normalized m }

/-- The SingleSweepStream.x property (basic.py lines 990-1002): deglitch runs
with its default arguments, threshold 8, window 1 s, mask extension 50, on
first access. -/
def SingleSweepStream.x (lib : DespikeLib) (m : FitModel)
    (sss : SingleSweepStream) : List RVal :=
  (deglitch lib m sss 8 1 50).x

/-- The SingleSweepStream.q property (basic.py lines 963-975). -/
def SingleSweepStream.q (lib : DespikeLib) (m : FitModel)
    (sss : SingleSweepStream) : List RVal :=
  (deglitch lib m sss 8 1 50).q

/-- The SingleSweepStream.y property (basic.py lines 977-988): half of q. -/
def SingleSweepStream.y (lib : DespikeLib) (m : FitModel)
    (sss : SingleSweepStream) : List RVal :=
  (SingleSweepStream.q lib m sss).map (Option.map (fun v => v / 2))

/-- The default NFFT of set_S and set_pca (basic.py lines 1175-1176 and
1276-1277): int(2 ** (floor(log2 n) - 3)).  Nat.log is the floor of the
base-2 logarithm of a positive size; the int truncation sends the fractional
powers arising for sizes below 8 to zero, and log2 of 0 is minus infinity,
which also truncates to zero. -/
def nfft_default (n : ℕ) : ℕ :=
  if n = 0 then 0
  else if 3 ≤ Nat.log 2 n then 2 ^ (Nat.log 2 n - 3) else 0

/-- Modelled from the spec: the kid_readout.analysis.timeseries.binning
module is not under src.  Spectral samples are grouped into logarithmic
frequency bins, bins_per_decade bins per decade; the bin index of a positive
frequency f is floor(bins_per_decade * log10 f), computed within the
rationals as the integer part of the base-10 logarithm of
f ^ bins_per_decade.  The bin with index k covers the frequencies from
10 ^ (k / bins_per_decade) up to 10 ^ ((k + 1) / bins_per_decade), so the
edges grow geometrically and the bin widths increase with frequency. -/
def binIdx (bpd : ℕ) (f : ℚ) : ℤ := Int.log 10 (f ^ bpd)

/-- Collapse equal adjacent entries of a list; on a sorted list this leaves
the distinct values in ascending order. -/
def collapseAdj : List ℤ → List ℤ
  | [] => []
  | [a] => [a]
  | a :: b :: t => if a = b then collapseAdj (b :: t) else a :: collapseAdj (b :: t)

/-- Modelled from the spec: the occupied bin indices of a frequency array
whose entries arrive in ascending order. -/
def binList (bpd : ℕ) (f : List ℚ) : List ℤ := collapseAdj (f.map (binIdx bpd))

/-- Modelled from the spec: the bin edges returned by log_bin_with_variance;
entry k stands for the frequency 10 ^ (k / bins_per_decade), so consecutive
entries delimit the occupied bins and one closing edge follows the last
bin. -/
def log_bin_edges (bpd : ℕ) (f : List ℚ) : List ℤ :=
  if (binList bpd f).isEmpty then []
  else binList bpd f ++ [(binList bpd f).getLastD 0 + 1]

/-- Modelled from the spec: the number of raw spectral samples that fall in
each occupied bin. -/
def log_bin_counts (bpd : ℕ) (f : List ℚ) : List ℕ :=
  (binList bpd f).map (fun k => f.countP (fun v => binIdx bpd v = k))

/-- Modelled from the spec: the mean frequency of each occupied bin. -/
def log_bin_freq (bpd : ℕ) (f : List ℚ) : List ℚ :=
  (binList bpd f).map (fun k => mean (f.filter (fun v => binIdx bpd v = k)))

/-- Modelled from the spec: the binned data, the mean of the data whose
frequencies fall in each occupied bin. -/
def log_bin_data (bpd : ℕ) (f : List ℚ) (d : List ℚ) : List ℚ :=
  (binList bpd f).map (fun k =>
    mean (((f.zip d).filter (fun p => binIdx bpd p.1 = k)).map Prod.snd))

/-- Modelled from the spec: the variance of each binned mean, the sum of the
member variances over the squared member count. -/
def log_bin_variance (bpd : ℕ) (f : List ℚ) (v : List ℚ) : List ℚ :=
  (binList bpd f).map (fun k =>
    (((f.zip v).filter (fun p => binIdx bpd p.1 = k)).map Prod.snd).sum
      / ((f.countP (fun w => binIdx bpd w = k) : ℚ)) ^ 2)

/-- Complex multiplication on pairs. -/
def cmul (a b : Cplx) : Cplx := (a.1 * b.1 - a.2 * b.2, a.1 * b.2 + a.2 * b.1)

/-- Division of a complex pair by a natural count. -/
def cdivN (z : Cplx) (n : ℕ) : Cplx := (z.1 / n, z.2 / n)

/-- Sum of a list of complex pairs. -/
def csum (l : List Cplx) : Cplx := ((l.map Prod.fst).sum, (l.map Prod.snd).sum)

/-- Modelled from the spec: log_bin_data for the complex cross spectrum. -/
def log_bin_data_c (bpd : ℕ) (f : List ℚ) (d : List Cplx) : List Cplx :=
  (binList bpd f).map (fun k =>
    cdivN (csum (((f.zip d).filter (fun p => binIdx bpd p.1 = k)).map Prod.snd))
      (f.countP (fun w => binIdx bpd w = k)))

/-- Modelled from the spec: log_bin_variance for the complex cross
spectrum. -/
def log_bin_variance_c (bpd : ℕ) (f : List ℚ) (v : List Cplx) : List Cplx :=
  (binList bpd f).map (fun k =>
    cdivN (cdivN (csum (((f.zip v).filter
      (fun p => binIdx bpd p.1 = k)).map Prod.snd))
      (f.countP (fun w => binIdx bpd w = k)))
      (f.countP (fun w => binIdx bpd w = k)))

/-- The matplotlib mlab spectral estimators, abstract: psd and csd take the
series, the sampling rate, NFFT, and noverlap, and return the spectrum and
the frequency array; the cross spectrum is complex valued. -/
structure MlabLib where
  psd : List RVal → ℚ → ℕ → ℕ → List ℚ × List ℚ
  csd : List RVal → List RVal → ℚ → ℕ → ℕ → List Cplx × List ℚ

/-- Dropping the DC and Nyquist bins: the numpy slice xs[1:-1] (basic.py
lines 1193-1197). -/
def dropEnds {α : Type} (xs : List α) : List α := (xs.drop 1).dropLast

/-- The attributes set by SingleSweepStream.set_S.  The edges are the bin
index representation of log_bin_edges, present only when binned. -/
structure SpectraResult where
  S_edges : Option (List ℤ)
  S_counts : List ℕ
  S_frequency : List ℚ
  S_qq : List ℚ
  S_xx : List ℚ
  S_xq : List Cplx
  S_xx_variance : List ℚ
  S_qq_variance : List ℚ
  S_xq_variance : List Cplx

/-- SingleSweepStream.set_S (basic.py lines 1145-1224) with the default
window, detrend, and masking_function arguments.  The deglitched x and q
series are the inputs of the mlab estimators; the DC and Nyquist bins are
dropped; ndof is 2 * x.size // NFFT; with binned the spectra, their
variances, and the frequencies go through the log binning, and without it
the edges are None, the counts are ones, and the frequencies stay
unbinned. -/
def set_S (ml : MlabLib) (lib : DespikeLib) (m : FitModel)
    (sss : SingleSweepStream) (NFFT : Option ℕ) (noverlap : Option ℕ)
    (binned : Bool) (bins_per_decade : ℕ) : SpectraResult :=
  let nfft := NFFT.getD (nfft_default sss.stream.s21_raw.length)
  let nov := noverlap.getD (nfft / 2)
  let q := SingleSweepStream.q lib m sss
  let x := SingleSweepStream.x lib m sss
  let Sqq_f := ml.psd q sss.stream.stream_sample_rate nfft nov
  let Sxx_f := ml.psd x sss.stream.stream_sample_rate nfft nov
  let Sxq_f := ml.csd x q sss.stream.stream_sample_rate nfft nov
  let f := dropEnds Sxq_f.2
  let S_xx := dropEnds Sxx_f.1
  let S_qq := dropEnds Sqq_f.1
  let S_xq := dropEnds Sxq_f.1
  let ndof := 2 * x.length / nfft
  if binned then
    { S_edges := some (log_bin_edges bins_per_decade f)
      S_counts := log_bin_counts bins_per_decade f
      S_frequency := log_bin_freq bins_per_decade f
      S_qq := log_bin_data bins_per_decade f S_qq
      S_xx := log_bin_data bins_per_decade f S_xx
      S_xq := log_bin_data_c bins_per_decade f S_xq
      S_xx_variance := log_bin_variance bins_per_decade f
        (S_xx.map (fun s => s ^ 2 / (ndof : ℚ)))
      S_qq_variance := log_bin_variance bins_per_decade f
        (S_qq.map (fun s => s ^ 2 / (ndof : ℚ)))
      S_xq_variance := log_bin_variance_c bins_per_decade f
        (S_xq.map (fun z => cdivN (cmul z z) ndof)) }
  else
    { S_edges := none
      S_counts := List.replicate f.length 1
      S_frequency := f
      S_qq := S_qq
      S_xx := S_xx
      S_xq := S_xq
      S_xx_variance := S_xx.map (fun s => s ^ 2 / (ndof : ℚ))
      S_qq_variance := S_qq.map (fun s => s ^ 2 / (ndof : ℚ))
      S_xq_variance := S_xq.map (fun z => cdivN (cmul z z) ndof) }

/-- Output bundle of iqnoise.pca_noise (module not under src): frequencies,
full spectra, the two eigenvalue rows, eigenvector data, rotation angles, and
projected spectra. -/
structure PcaOut where
  fr : List ℚ
  S : List Cplx
  evals0 : List ℚ
  evals1 : List ℚ
  evects : List Cplx
  angles : List ℚ
  piq : List Cplx

/-- The iqnoise module is not under src; pca_noise enters the model as an
abstract function of the complex series (as zipped real and imaginary
parts), NFFT, the sampling rate, and the use_log_bins flag. -/
structure IqnoiseLib where
  pca_noise : List (RVal × RVal) → ℕ → ℚ → Bool → PcaOut

/-- The attributes set by SingleSweepStream.set_pca. -/
structure PcaResult where
  pca_S_frequency : List ℚ
  pca_S_00 : List ℚ
  pca_S_11 : List ℚ
  pca_angles : List ℚ

/-- SingleSweepStream.set_pca (basic.py lines 1250-1285): run pca_noise on
the complex series x + 1j * y with y = q / 2, and keep the frequencies, the
two eigenvalue spectra, and the rotation angles. -/
def set_pca (iq : IqnoiseLib) (lib : DespikeLib) (m : FitModel)
    (sss : SingleSweepStream) (NFFT : Option ℕ) (binned : Bool) : PcaResult :=
  let nfft := NFFT.getD (nfft_default sss.stream.s21_raw.length)
  let z := (SingleSweepStream.x lib m sss).zip (SingleSweepStream.y lib m sss)
  let o := iq.pca_noise z nfft sss.stream.stream_sample_rate binned
  { pca_S_frequency := o.fr
    pca_S_00 := o.evals0
    pca_S_11 := o.evals1
    pca_angles := o.angles }

/-- A default stream used only as the getD fallback in indexing lemmas. -/
def dfltStream : SingleStream :=
  { frequency := 0, epoch := 0, stream_sample_rate := 0, s21_raw := []
    sequence_start_number := none, state := 0 }

/-- A trivial resonator for witnesses: the background is already removed and
inversion reads off the parts. -/
def trivRes : Resonator :=
  { remove_background := fun _ z => z, invert := fun z => (z.1, z.2) }

/-- A trivial fit model for witnesses. -/
def trivModel : FitModel := fun _ _ _ => trivRes

/-- A trivial despike library for witnesses: an empty mask and unchanged
series. -/
def trivDespike : DespikeLib :=
  { deglitch_mask_mad := fun xs _ _ _ => Except.ok (xs.map (fun _ => false))
    mask_real := fun xs _ _ => Except.ok xs
    mask_cplx := fun xs _ _ => Except.ok xs }

/-- A despike library that always raises, for exercising the except branch of
deglitch. -/
def failDespike : DespikeLib :=
  { deglitch_mask_mad := fun _ _ _ _ => Except.error ()
    mask_real := fun _ _ _ => Except.error ()
    mask_cplx := fun _ _ _ => Except.error () }

/-- An mlab library for witnesses returning fixed small spectra. -/
def trivMlab : MlabLib :=
  { psd := fun _ _ _ _ => ([1, 2, 3, 4], [0, 1, 10, 20])
    csd := fun _ _ _ _ _ => ([(1, 0), (2, 0), (3, 0), (4, 0)], [0, 1, 10, 20]) }

/-- An iqnoise library that echoes the NFFT it was passed in the frequency
slot, exhibiting the value set_pca uses. -/
def echoIq : IqnoiseLib :=
  { pca_noise := fun _ n _ _ =>
      { fr := [(n : ℚ)], S := [], evals0 := [], evals1 := []
        evects := [], angles := [], piq := [] } }

/-- A four-sample stream at unit sample rate. -/
def stream4 : SingleStream :=
  { frequency := 1, epoch := 0, stream_sample_rate := 1
    s21_raw := [some (1, 0), some (2, 0), some (3, 0), some (4, 0)]
    sequence_start_number := some 0, state := 0 }

/-- A one-stream sweep whose resonator is already fitted. -/
def sweep4 : SingleSweep := { streams := [stream4], res_cache := some trivRes }

/-- The same sweep with no fitted resonator cached yet. -/
def sweep4none : SingleSweep := { streams := [stream4], res_cache := none }

/-- A second stream at a lower frequency than stream4. -/
def stream4b : SingleStream :=
  { frequency := 0, epoch := 0, stream_sample_rate := 1
    s21_raw := [some (5, 0), some (6, 0), some (7, 0), some (8, 0)]
    sequence_start_number := some 0, state := 0 }

/-- A two-channel sweep array whose concatenated frequencies arrive out of
order. -/
def sweepArr2 : SweepArray :=
  { stream_arrays := [{ chans := [stream4, stream4b] }] }

/-- The four-sample sweep-stream pair for witnesses and counterexamples. -/
def sss4 : SingleSweepStream := { sweep := sweep4, stream := stream4 }

/-- An eight-sample stream at unit sample rate. -/
def stream8 : SingleStream :=
  { frequency := 1, epoch := 0, stream_sample_rate := 1
    s21_raw := [some (1, 0), some (2, 0), some (3, 0), some (4, 0),
      some (5, 0), some (6, 0), some (7, 0), some (8, 0)]
    sequence_start_number := some 0, state := 0 }

/-- An eight-sample sweep-stream pair for the set_pca witness. -/
def sss8 : SingleSweepStream :=
  { sweep := { streams := [stream8], res_cache := some trivRes }
    stream := stream8 }

/-- A three-sample stream at unit sample rate starting at epoch 0, whose
samples have absolute times 0, 1, and 2 and carry distinct values. -/
def cexStream : SingleStream :=
  { frequency := 0, epoch := 0, stream_sample_rate := 1
    s21_raw := [some (0, 0), some (1, 0), some (2, 0)]
    sequence_start_number := some 0, state := 0 }

end Basic

/-- C9: setting the SIM921 excitation frequency to a value outside the closed
range [1.95, 61.1] Hz raises ValueError and writes nothing to the serial link,
leaving the sent-command log unchanged; for a value inside the range the FREQ
command is sent. -/
theorem C9_sim921_frequency_range (dev : Sim.SIM921) (f : ℚ) :
    ((f < Sim.SIM921.minimum_frequency ∨ Sim.SIM921.maximum_frequency < f) →
      dev.set_frequency f = (dev, Except.error ())) ∧
    (Sim.SIM921.minimum_frequency ≤ f → f ≤ Sim.SIM921.maximum_frequency →
      dev.set_frequency f =
        ({ dev with sent := dev.sent ++ [Sim.Command.FREQ f] }, Except.ok ())) := by
  constructor
  · intro h
    have hn : ¬ (Sim.SIM921.minimum_frequency ≤ f ∧
        f ≤ Sim.SIM921.maximum_frequency) := by
      rcases h with h | h
      · exact fun hc => absurd hc.1 (not_le.mpr h)
      · exact fun hc => absurd hc.2 (not_le.mpr h)
    simp [Sim.SIM921.set_frequency, hn]
  · intro h1 h2
    simp [Sim.SIM921.set_frequency, h1, h2]

/-- Witness for C9 at concrete frequencies 100 Hz (rejected) and 10 Hz
(accepted). -/
theorem C9_sim921_frequency_range_witness :
    (Sim.SIM921.mk []).set_frequency 100 =
      (Sim.SIM921.mk [], Except.error ()) ∧
    (Sim.SIM921.mk []).set_frequency 10 =
      (Sim.SIM921.mk [Sim.Command.FREQ 10], Except.ok ()) := by
  constructor
  · exact (C9_sim921_frequency_range (Sim.SIM921.mk []) 100).1
      (Or.inr (by norm_num [Sim.SIM921.maximum_frequency]))
  · have h := (C9_sim921_frequency_range (Sim.SIM921.mk []) 10).2
      (by norm_num [Sim.SIM921.minimum_frequency])
      (by norm_num [Sim.SIM921.maximum_frequency])
    simpa using h

/-- C10 counterexample: with a one-point stored curve and a two-point written
curve whose values all lie within the fractional tolerance of the stored
value, validate_curve returns True even though the stored and input arrays
have different lengths, because numpy broadcasts the length-one array instead
of raising ValueError.  The claim says validate_curve returns False whenever
the lengths differ. -/
theorem C10_counterexample_validate_broadcast :
    Sim.SIMThermometer.validate_curve Sim.cexDev 1 Sim.cexCurve = true ∧
    (Sim.cexDev.stored 1).sensor.length ≠ Sim.cexCurve.sensor.length := by
  constructor
  · show Sim.SIMThermometer.validate_curve Sim.cexDev 1 Sim.cexCurve = true
    unfold Sim.SIMThermometer.validate_curve Sim.broadcastAll Sim.cexDev Sim.cexCurve
    norm_num [Sim.withinTol, Sim.maximum_fractional_error, abs_lt]
  · decide

/-- C10 (amended): write_curve raises SIMError before writing any point, with
the device state unchanged, when the curve holds more points than
maximum_temperature_points; otherwise the points are written and SIMError is
raised exactly when the stored result fails validation.  validate_curve
returns True only when the identification and format match and, for stored
and input arrays of equal length, every stored value is within the maximum
fractional error of the written one; when the lengths differ and neither
array has exactly one point (so numpy broadcasting does not apply), it
returns False instead of propagating the ValueError. -/
theorem C10_write_curve_validate_curve (hw : Sim.CalibrationCurve → Sim.CalibrationCurve)
    (dev : Sim.SIMThermometer) (number : ℕ) (curve : Sim.CalibrationCurve) :
    (dev.maximum_temperature_points < curve.sensor.length →
      Sim.SIMThermometer.write_curve hw dev number curve = (dev, Except.error ())) ∧
    (curve.sensor.length ≤ dev.maximum_temperature_points →
      Sim.SIMThermometer.write_curve hw dev number curve =
        ({ dev with stored := Function.update dev.stored number (hw curve) },
          if Sim.SIMThermometer.validate_curve
              { dev with stored := Function.update dev.stored number (hw curve) }
              number curve
          then Except.ok () else Except.error ())) ∧
    (Sim.SIMThermometer.validate_curve dev number curve = true →
      (dev.stored number).identification = curve.identification ∧
      (dev.stored number).format = curve.format ∧
      ((dev.stored number).sensor.length = curve.sensor.length →
        ∀ i, i < curve.sensor.length →
          Sim.withinTol ((dev.stored number).sensor.getD i 0)
            (curve.sensor.getD i 0) = true) ∧
      ((dev.stored number).temperature.length = curve.temperature.length →
        ∀ i, i < curve.temperature.length →
          Sim.withinTol ((dev.stored number).temperature.getD i 0)
            (curve.temperature.getD i 0) = true)) ∧
    ((dev.stored number).sensor.length ≠ curve.sensor.length →
      (dev.stored number).sensor.length ≠ 1 → curve.sensor.length ≠ 1 →
      Sim.SIMThermometer.validate_curve dev number curve = false) := by
  refine ⟨?_, ?_, ?_, ?_⟩
  · intro h
    simp [Sim.SIMThermometer.write_curve, h]
  · intro h
    unfold Sim.SIMThermometer.write_curve
    rw [if_neg (Nat.not_lt.mpr h)]
    by_cases hv : Sim.SIMThermometer.validate_curve
        { dev with stored := Function.update dev.stored number (hw curve) }
        number curve
    · simp [hv]
    · simp [hv]
  · intro h
    unfold Sim.SIMThermometer.validate_curve at h
    rcases hs : Sim.broadcastAll (dev.stored number).sensor curve.sensor with _ | bs
    · rw [hs] at h; exact absurd h (by simp)
    rcases ht : Sim.broadcastAll (dev.stored number).temperature curve.temperature
      with _ | bt
    · rw [hs, ht] at h; exact absurd h (by simp)
    rw [hs, ht] at h
    simp only [Bool.and_eq_true, beq_iff_eq] at h
    obtain ⟨⟨⟨hbs, hbt⟩, hid⟩, hfmt⟩ := h
    subst hbs hbt
    refine ⟨hid, hfmt, ?_, ?_⟩
    · intro hlen i hi
      unfold Sim.broadcastAll at hs
      rw [if_pos hlen] at hs
      have hall : (List.zipWith Sim.withinTol (dev.stored number).sensor
          curve.sensor).all id = true := Option.some.inj hs
      have hi2 : i < (List.zipWith Sim.withinTol (dev.stored number).sensor
          curve.sensor).length := by
        rw [List.length_zipWith, hlen]; omega
      have hmem := List.getElem_mem hi2
      have htrue := List.all_eq_true.mp hall _ hmem
      rw [List.getElem_zipWith] at htrue
      have h1 : i < (dev.stored number).sensor.length := by omega
      rw [List.getD_eq_getElem _ _ h1, List.getD_eq_getElem _ _ hi]
      simpa using htrue
    · intro hlen i hi
      unfold Sim.broadcastAll at ht
      rw [if_pos hlen] at ht
      have hall : (List.zipWith Sim.withinTol (dev.stored number).temperature
          curve.temperature).all id = true := Option.some.inj ht
      have hi2 : i < (List.zipWith Sim.withinTol (dev.stored number).temperature
          curve.temperature).length := by
        rw [List.length_zipWith, hlen]; omega
      have hmem := List.getElem_mem hi2
      have htrue := List.all_eq_true.mp hall _ hmem
      rw [List.getElem_zipWith] at htrue
      have h1 : i < (dev.stored number).temperature.length := by omega
      rw [List.getD_eq_getElem _ _ h1, List.getD_eq_getElem _ _ hi]
      simpa using htrue
  · intro hne hs1 hc1
    unfold Sim.SIMThermometer.validate_curve
    have hnone : Sim.broadcastAll (dev.stored number).sensor curve.sensor = none := by
      unfold Sim.broadcastAll
      rw [if_neg hne, if_neg hs1, if_neg hc1]
    rw [hnone]

/-- Witness for C10: a curve with more points than the device limit is
rejected with the device state unchanged. -/
theorem C10_write_curve_validate_curve_witness :
    Sim.SIMThermometer.write_curve id
      { maximum_temperature_points := 1, stored := Sim.cexDev.stored } 0
      Sim.cexCurve =
      ({ maximum_temperature_points := 1, stored := Sim.cexDev.stored },
        Except.error ()) := by
  exact (C10_write_curve_validate_curve id
    { maximum_temperature_points := 1, stored := Sim.cexDev.stored } 0
    Sim.cexCurve).1 (by decide)

/-- The count of non-NaN entries equals the length of the NaN-stripped
list. -/
theorem countP_isSome_eq_length_filterMap {α : Type} (chan : List (Option α)) :
    chan.countP (fun s => s.isSome) = (chan.filterMap id).length := by
  induction chan with
  | nil => rfl
  | cons h t ih => cases h <;> simp [List.countP_cons, ih]

/-- C8: s21_raw_mean_error never divides by zero.  For a channel whose
samples are all NaN the good-sample count is replaced by NaN and the result
is NaN rather than an exception or infinity; for a channel with at least one
good sample the result is the pair of squared nanstd values of the real and
imaginary parts over the good-sample count, standing for
(nanstd re + 1j nanstd im) / sqrt count. -/
theorem C8_s21_raw_mean_error_nan_safe (chan : List Basic.Sample) :
    Basic.s21_raw_mean_error chan ≠ Except.error () ∧
    ((∀ s ∈ chan, s = none) →
      Basic.s21_raw_mean_error chan = Except.ok none) ∧
    (0 < chan.countP (fun s => s.isSome) →
      Basic.s21_raw_mean_error chan = Except.ok (some
        (Basic.rvar ((chan.filterMap id).map Prod.fst),
         Basic.rvar ((chan.filterMap id).map Prod.snd),
         chan.countP (fun s => s.isSome)))) := by
  have hlen := countP_isSome_eq_length_filterMap chan
  have hcase0 : chan.countP (fun s => s.isSome) = 0 →
      Basic.s21_raw_mean_error chan = Except.ok none := by
    intro hz
    have hempty : (chan.filterMap id).isEmpty = true := by
      rw [List.isEmpty_iff_length_eq_zero, ← hlen]
      exact hz
    simp [Basic.s21_raw_mean_error, hz, hempty]
  have hcase1 : 0 < chan.countP (fun s => s.isSome) →
      Basic.s21_raw_mean_error chan = Except.ok (some
        (Basic.rvar ((chan.filterMap id).map Prod.fst),
         Basic.rvar ((chan.filterMap id).map Prod.snd),
         chan.countP (fun s => s.isSome))) := by
    intro hp
    have hnz : chan.countP (fun s => s.isSome) ≠ 0 := Nat.pos_iff_ne_zero.mp hp
    have hempty : (chan.filterMap id).isEmpty = false := by
      have h1 : (chan.filterMap id).length ≠ 0 := by rw [← hlen]; exact hnz
      rcases h : (chan.filterMap id).isEmpty with _ | _
      · rfl
      · exact absurd (List.isEmpty_iff_length_eq_zero.mp h) h1
    simp [Basic.s21_raw_mean_error, hnz, hempty]
  refine ⟨?_, ?_, hcase1⟩
  · rcases Nat.eq_zero_or_pos (chan.countP (fun s => s.isSome)) with hz | hp
    · rw [hcase0 hz]; simp
    · rw [hcase1 hp]; simp
  · intro hall
    apply hcase0
    rw [List.countP_eq_zero]
    intro a ha
    rw [hall a ha]
    simp

/-- Witness for C8: an all-NaN channel yields NaN, and a channel with one
good sample yields the variance pair over a count of one. -/
theorem C8_s21_raw_mean_error_nan_safe_witness :
    Basic.s21_raw_mean_error [none, none] = Except.ok none ∧
    Basic.s21_raw_mean_error [some ((1 : ℚ), (2 : ℚ))] =
      Except.ok (some (Basic.rvar [1], Basic.rvar [2], 1)) := by
  constructor
  · exact (C8_s21_raw_mean_error_nan_safe [none, none]).2.1 (by simp)
  · have h := (C8_s21_raw_mean_error_nan_safe [some ((1 : ℚ), (2 : ℚ))]).2.2
      (by decide)
    simpa using h

/-- C6 evaluated at the failing input: a stream with epoch 0, unit sample
rate, and samples at absolute times 0, 1, and 2.  epochs uses searchsorted
side right for the stop epoch, so the sample at time exactly 1 satisfies
time at most stop and is retained by epochs(0, 1) as well as by
epochs(1, 2), while the docstring at basic.py lines 220-223 and the claim
require start is at most time strictly below stop with no duplication:
epochs(0, 1) and epochs(1, 2) hold two samples each, yet epochs(0, 2) holds
only three. -/
theorem C6_epochs_boundary_duplication :
    (Basic.cexStream.epochs 0 1).s21_raw = [some (0, 0), some (1, 0)] ∧
    (Basic.cexStream.epochs 1 2).s21_raw = [some (1, 0), some (2, 0)] ∧
    (Basic.cexStream.epochs 0 2).s21_raw =
      [some (0, 0), some (1, 0), some (2, 0)] ∧
    (Basic.cexStream.epochs 1 2).epoch = 1 := by
  refine ⟨?_, ?_, ?_, ?_⟩ <;>
    norm_num [Basic.SingleStream.epochs, Basic.SingleStream.sample_time,
      Basic.searchsorted_left, Basic.searchsorted_right, Basic.cexStream,
      List.countP_cons, List.range_succ]

/-- getD at an in-range index does not depend on the default. -/
theorem getD_eq_getD_of_lt {α : Type} (l : List α) (d d' : α) {i : ℕ}
    (hi : i < l.length) : l.getD i d = l.getD i d' := by
  rw [List.getD_eq_getElem _ _ hi, List.getD_eq_getElem _ _ hi]

/-- getD through a map at an in-range index. -/
theorem getD_map_of_lt {α β : Type} (f : α → β) (l : List α) (d : α) (e : β)
    {j : ℕ} (hj : j < l.length) : (l.map f).getD j e = f (l.getD j d) := by
  rw [List.getD_eq_getElem _ _ (by simpa using hj), List.getElem_map,
    List.getD_eq_getElem _ _ hj]

/-- argsort returns a permutation of the index range. -/
theorem argsort_perm_range (keys : List ℚ) :
    List.Perm (Basic.argsort keys) (List.range keys.length) :=
  List.perm_insertionSort _ _

/-- Members of argsort are in-range indices. -/
theorem argsort_mem_lt (keys : List ℚ) {j : ℕ} (hj : j ∈ Basic.argsort keys) :
    j < keys.length :=
  List.mem_range.mp ((argsort_perm_range keys).mem_iff.mp hj)

/-- argsort sorts the indices by their keys. -/
theorem sorted_argsort (keys : List ℚ) :
    List.Sorted (fun i j => keys.getD i 0 ≤ keys.getD j 0)
      (Basic.argsort keys) := by
  haveI : IsTotal ℕ (fun i j => keys.getD i 0 ≤ keys.getD j 0) :=
    ⟨fun a b => le_total _ _⟩
  haveI : IsTrans ℕ (fun i j => keys.getD i 0 ≤ keys.getD j 0) :=
    ⟨fun a b c hab hbc => le_trans hab hbc⟩
  exact List.sorted_insertionSort _ _

/-- Permuting the keys by their own argsort yields a non-decreasing list. -/
theorem sorted_permuteBy_argsort (keys : List ℚ) :
    List.Sorted (· ≤ ·) (Basic.permuteBy 0 (Basic.argsort keys) keys) := by
  unfold Basic.permuteBy
  exact List.Pairwise.map (fun i => keys.getD i 0) (fun a b h => h)
    (sorted_argsort keys)

/-- In-range entries of argsort are below the key count. -/
theorem argsort_getD_lt (keys : List ℚ) (i : ℕ)
    (hi : i < (Basic.argsort keys).length) :
    (Basic.argsort keys).getD i 0 < keys.length := by
  apply argsort_mem_lt keys
  rw [List.getD_eq_getElem _ _ hi]
  exact List.getElem_mem hi

/-- Reading a permuted list at an in-range position reads the underlying list
at the permuted index, whatever the defaults. -/
theorem permuteBy_getD {α : Type} (d e d' : α) (order : List ℕ) (xs : List α)
    (i : ℕ) (hi : i < order.length) (hj : order.getD i 0 < xs.length) :
    (Basic.permuteBy d order xs).getD i e = xs.getD (order.getD i 0) d' := by
  unfold Basic.permuteBy
  rw [getD_map_of_lt (fun j => xs.getD j d) order 0 e hi]
  exact getD_eq_getD_of_lt xs d d' hj

/-- Flattening the per-array channel values equals mapping over the flattened
channels. -/
theorem flatten_map_eq {β : Type} (sa : Basic.SweepArray)
    (g : Basic.SingleStream → β) :
    (sa.stream_arrays.map (fun a => a.chans.map g)).flatten =
      sa.all_streams.map g := by
  unfold Basic.SweepArray.all_streams
  rw [List.map_flatten, List.map_map]
  rfl

/-- Alignment of one permuted value list with the underlying streams. -/
theorem align_streams {β : Type} (streams : List Basic.SingleStream)
    (g : Basic.SingleStream → β) (d e : β) (i : ℕ)
    (hi : i < (Basic.argsort (streams.map Basic.SingleStream.frequency)).length) :
    (Basic.permuteBy d
        (Basic.argsort (streams.map Basic.SingleStream.frequency))
        (streams.map g)).getD i e
      = g (streams.getD
          ((Basic.argsort (streams.map Basic.SingleStream.frequency)).getD i 0)
          Basic.dfltStream) := by
  have hj := argsort_getD_lt (streams.map Basic.SingleStream.frequency) i hi
  rw [List.length_map] at hj
  rw [permuteBy_getD d e (g Basic.dfltStream) _ _ i hi (by simpa using hj)]
  exact getD_map_of_lt g streams Basic.dfltStream (g Basic.dfltStream) hj

/-- C5: for a SingleSweep and a SweepArray, ascending_order is a permutation
of the index range of the underlying streams, the frequency property is
non-decreasing, and the frequency, s21_point, s21_point_error, and s21_raw
properties are all permuted by the same ascending_order array, so the i-th
entries of all four come from the one stream at index ascending_order i. -/
theorem C5_ascending_order_alignment (ss : Basic.SingleSweep)
    (sa : Basic.SweepArray) :
    List.Sorted (· ≤ ·) ss.frequency ∧
    List.Perm ss.ascending_order (List.range ss.streams.length) ∧
    (∀ i, i < ss.ascending_order.length →
      ss.ascending_order.getD i 0 < ss.streams.length ∧
      ss.frequency.getD i 0 =
        (ss.streams.getD (ss.ascending_order.getD i 0)
          Basic.dfltStream).frequency ∧
      ss.s21_point.getD i none = Basic.SingleStream.s21_point
        (ss.streams.getD (ss.ascending_order.getD i 0) Basic.dfltStream) ∧
      ss.s21_point_error.getD i (Except.ok none) =
        Basic.SingleStream.s21_point_error
          (ss.streams.getD (ss.ascending_order.getD i 0) Basic.dfltStream) ∧
      ss.s21_raw.getD i [] =
        (ss.streams.getD (ss.ascending_order.getD i 0)
          Basic.dfltStream).s21_raw) ∧
    List.Sorted (· ≤ ·) sa.frequency ∧
    List.Perm sa.ascending_order (List.range sa.all_streams.length) ∧
    (∀ i, i < sa.ascending_order.length →
      sa.ascending_order.getD i 0 < sa.all_streams.length ∧
      sa.frequency.getD i 0 =
        (sa.all_streams.getD (sa.ascending_order.getD i 0)
          Basic.dfltStream).frequency ∧
      sa.s21_point.getD i none = Basic.SingleStream.s21_point
        (sa.all_streams.getD (sa.ascending_order.getD i 0)
          Basic.dfltStream) ∧
      sa.s21_point_error.getD i (Except.ok none) =
        Basic.SingleStream.s21_point_error
          (sa.all_streams.getD (sa.ascending_order.getD i 0)
            Basic.dfltStream) ∧
      sa.s21_raw.getD i [] =
        (sa.all_streams.getD (sa.ascending_order.getD i 0)
          Basic.dfltStream).s21_raw) := by
  have hsa_freq := flatten_map_eq sa Basic.SingleStream.frequency
  have hsa_pt := flatten_map_eq sa Basic.SingleStream.s21_point
  have hsa_err := flatten_map_eq sa Basic.SingleStream.s21_point_error
  have hsa_raw := flatten_map_eq sa Basic.SingleStream.s21_raw
  refine ⟨sorted_permuteBy_argsort _, ?_, ?_, ?_, ?_, ?_⟩
  · unfold Basic.SingleSweep.ascending_order
    have := argsort_perm_range (ss.streams.map Basic.SingleStream.frequency)
    rwa [List.length_map] at this
  · intro i hi
    unfold Basic.SingleSweep.ascending_order at hi ⊢
    have hj := argsort_getD_lt (ss.streams.map Basic.SingleStream.frequency)
      i hi
    rw [List.length_map] at hj
    exact ⟨hj,
      align_streams ss.streams Basic.SingleStream.frequency 0 0 i hi,
      align_streams ss.streams Basic.SingleStream.s21_point none none i hi,
      align_streams ss.streams Basic.SingleStream.s21_point_error
        (Except.ok none) (Except.ok none) i hi,
      align_streams ss.streams Basic.SingleStream.s21_raw [] [] i hi⟩
  · unfold Basic.SweepArray.frequency Basic.SweepArray.ascending_order
    rw [hsa_freq]
    exact sorted_permuteBy_argsort _
  · unfold Basic.SweepArray.ascending_order
    rw [hsa_freq]
    have := argsort_perm_range (sa.all_streams.map Basic.SingleStream.frequency)
    rwa [List.length_map] at this
  · intro i hi
    unfold Basic.SweepArray.frequency Basic.SweepArray.s21_point
      Basic.SweepArray.s21_point_error Basic.SweepArray.s21_raw
      Basic.SweepArray.ascending_order
    unfold Basic.SweepArray.ascending_order at hi
    rw [hsa_freq] at hi
    rw [hsa_freq, hsa_pt, hsa_err, hsa_raw]
    have hj := argsort_getD_lt
      (sa.all_streams.map Basic.SingleStream.frequency) i hi
    rw [List.length_map] at hj
    exact ⟨hj,
      align_streams sa.all_streams Basic.SingleStream.frequency 0 0 i hi,
      align_streams sa.all_streams Basic.SingleStream.s21_point none none i hi,
      align_streams sa.all_streams Basic.SingleStream.s21_point_error
        (Except.ok none) (Except.ok none) i hi,
      align_streams sa.all_streams Basic.SingleStream.s21_raw [] [] i hi⟩

/-- Witness for C5 at a concrete sweep and sweep array with two channels in
descending frequency order. -/
theorem C5_ascending_order_alignment_witness :
    (Basic.sweepArr2.ascending_order.getD 0 0 <
      Basic.sweepArr2.all_streams.length) ∧
    List.Sorted (· ≤ ·) Basic.sweepArr2.frequency := by
  constructor
  · exact ((C5_ascending_order_alignment Basic.sweep4
      Basic.sweepArr2).2.2.2.2.2 0 (by decide)).1
  · exact (C5_ascending_order_alignment Basic.sweep4
      Basic.sweepArr2).2.2.2.1

/-- C4: fit_resonator builds the model from the sweep frequency, s21_point,
and s21_point_error arrays, which are in ascending frequency order, fits it,
and caches it; the resonator property returns the cached result of the last
fit_resonator call and fits once on first access; and the resonator of a
SingleSweepStream is exactly the resonator of its sweep. -/
theorem C4_fit_resonator_property (m : Basic.FitModel) (ss : Basic.SingleSweep)
    (sss : Basic.SingleSweepStream) :
    (ss.fit_resonator m).2 = m ss.frequency ss.s21_point ss.s21_point_error ∧
    List.Sorted (· ≤ ·) ss.frequency ∧
    (ss.fit_resonator m).1.res_cache = some (ss.fit_resonator m).2 ∧
    (∀ r, ss.res_cache = some r → ss.resonator m = (ss, r)) ∧
    (ss.res_cache = none → ss.resonator m = ss.fit_resonator m) ∧
    Basic.SingleSweepStream.resonator m sss = (sss.sweep.resonator m).2 := by
  refine ⟨rfl, sorted_permuteBy_argsort _, rfl, ?_, ?_, rfl⟩
  · intro r h
    simp [Basic.SingleSweep.resonator, h]
  · intro h
    simp [Basic.SingleSweep.resonator, h]

/-- Witness for C4: with a cached resonator the property returns it without
refitting, and with an empty cache it returns the fresh fit. -/
theorem C4_fit_resonator_property_witness :
    Basic.sweep4.resonator Basic.trivModel = (Basic.sweep4, Basic.trivRes) ∧
    Basic.sweep4none.resonator Basic.trivModel =
      Basic.sweep4none.fit_resonator Basic.trivModel := by
  constructor
  · exact (C4_fit_resonator_property Basic.trivModel Basic.sweep4
      Basic.sss4).2.2.2.1 Basic.trivRes rfl
  · exact (C4_fit_resonator_property Basic.trivModel Basic.sweep4none
      Basic.sss4).2.2.2.2.1 rfl

/-- C1: the analysis pipeline runs sweep, resonator fit, inversion, spectral
estimation, in that order.  stream_s21_normalized removes the background
fitted to the sweep from the raw stream; set_raw_q_and_x inverts the
resonator model on stream_s21_normalized to get x_raw and q_raw; the x and q
properties are their deglitched versions; and set_S computes S_xx, S_qq, and
S_xq by spectral estimation on the deglitched x and q series, never directly
on s21_raw. -/
theorem C1_pipeline_order (m : Basic.FitModel) (ml : Basic.MlabLib)
    (lib : Basic.DespikeLib) (sss : Basic.SingleSweepStream)
    (bpd : ℕ) :
    sss.stream_s21_normalized m = sss.stream.s21_raw.map (Option.map
      ((sss.sweep.resonator m).2.remove_background sss.stream.frequency)) ∧
    Basic.SingleSweepStream.resonator m sss = (sss.sweep.resonator m).2 ∧
    sss.x_raw m = (sss.stream_s21_normalized m).map
      (fun s => (Basic.invertSample (sss.resonator m) s).1) ∧
    sss.q_raw m = (sss.stream_s21_normalized m).map
      (fun s => (Basic.invertSample (sss.resonator m) s).2) ∧
    Basic.SingleSweepStream.x lib m sss = (Basic.deglitch lib m sss 8 1 50).x ∧
    Basic.SingleSweepStream.q lib m sss = (Basic.deglitch lib m sss 8 1 50).q ∧
    (Basic.set_S ml lib m sss none none false bpd).S_qq =
      Basic.dropEnds (ml.psd (Basic.SingleSweepStream.q lib m sss)
        sss.stream.stream_sample_rate
        (Basic.nfft_default sss.stream.s21_raw.length)
        (Basic.nfft_default sss.stream.s21_raw.length / 2)).1 ∧
    (Basic.set_S ml lib m sss none none false bpd).S_xx =
      Basic.dropEnds (ml.psd (Basic.SingleSweepStream.x lib m sss)
        sss.stream.stream_sample_rate
        (Basic.nfft_default sss.stream.s21_raw.length)
        (Basic.nfft_default sss.stream.s21_raw.length / 2)).1 ∧
    (Basic.set_S ml lib m sss none none false bpd).S_xq =
      Basic.dropEnds (ml.csd (Basic.SingleSweepStream.x lib m sss)
        (Basic.SingleSweepStream.q lib m sss)
        sss.stream.stream_sample_rate
        (Basic.nfft_default sss.stream.s21_raw.length)
        (Basic.nfft_default sss.stream.s21_raw.length / 2)).1 := by
  refine ⟨rfl, rfl, rfl, rfl, rfl, rfl, ?_, ?_, ?_⟩ <;> rfl

/-- No entry of an all-False mask is counted. -/
theorem countP_id_replicate_false (n : ℕ) :
    List.countP id (List.replicate n false) = 0 := by
  induction n with
  | zero => rfl
  | succ k ih => simp [List.replicate_succ, List.countP_cons, ih]

/-- The deglitch window is the smallest power of two at least the window in
samples, for windows of at least one sample. -/
theorem window_samples_spec (v : ℚ) (hv : 1 ≤ v) :
    (∃ j : ℕ, Basic.window_samples v = 2 ^ j) ∧
    v ≤ (Basic.window_samples v : ℚ) ∧
    ∀ k : ℕ, v ≤ (2 : ℚ) ^ k → Basic.window_samples v ≤ 2 ^ k := by
  have hv0 : (0 : ℚ) < v := lt_of_lt_of_le one_pos hv
  have hnn : 0 ≤ Int.clog 2 v := by
    rw [← Int.clog_one_right 2 (R := ℚ)]
    exact Int.clog_mono_right one_pos hv
  have hws : Basic.window_samples v = 2 ^ (Int.clog 2 v).toNat := by
    unfold Basic.window_samples
    rw [if_pos hnn]
  refine ⟨⟨(Int.clog 2 v).toNat, hws⟩, ?_, ?_⟩
  · rw [hws]
    have h := Int.self_le_zpow_clog (b := 2) (by norm_num) v (R := ℚ)
    push_cast
    rw [← zpow_natCast ((2 : ℚ)) (Int.clog 2 v).toNat,
      Int.toNat_of_nonneg hnn]
    exact_mod_cast h
  · intro k hk
    rw [hws]
    have hle : Int.clog 2 v ≤ (k : ℤ) := by
      rw [← Int.le_zpow_iff_clog_le (by norm_num) hv0]
      rw [zpow_natCast]
      exact_mod_cast hk
    have hk2 : (Int.clog 2 v).toNat ≤ k := by omega
    exact Nat.pow_le_pow_right (by norm_num) hk2

/-- Success of the try block of deglitch decomposes into success of the four
library calls. -/
theorem deglitchTry_ok_elim (lib : Basic.DespikeLib) (m : Basic.FitModel)
    (sss : Basic.SingleSweepStream) (threshold w : ℚ) (e : ℕ)
    (R : Basic.DeglitchResult)
    (h : Basic.deglitchTry lib m sss threshold w e = Except.ok R) :
    ∃ mask mx mq ms,
      lib.deglitch_mask_mad (sss.x_raw m) threshold
        (Basic.window_samples (w * sss.stream.stream_sample_rate)) e =
        Except.ok mask ∧
      lib.mask_real (sss.x_raw m) mask
        (Basic.window_samples (w * sss.stream.stream_sample_rate)) =
        Except.ok mx ∧
      lib.mask_real (sss.q_raw m) mask
        (Basic.window_samples (w * sss.stream.stream_sample_rate)) =
        Except.ok mq ∧
      lib.mask_cplx (sss.stream_s21_normalized m) mask
        (Basic.window_samples (w * sss.stream.stream_sample_rate)) =
        Except.ok ms ∧
      R = { glitch_mask := mask
            number_of_masked_samples := mask.countP id
            x := mx, q := mq, stream_s21_normalized_deglitched := ms } := by
  unfold Basic.deglitchTry at h
  cases h1 : lib.deglitch_mask_mad (sss.x_raw m) threshold
      (Basic.window_samples (w * sss.stream.stream_sample_rate)) e with
  | error u => simp only [h1] at h; exact Except.noConfusion h
  | ok mask =>
    simp only [h1] at h
    cases h2 : lib.mask_real (sss.x_raw m) mask
        (Basic.window_samples (w * sss.stream.stream_sample_rate)) with
    | error u => simp only [h2] at h; exact Except.noConfusion h
    | ok mx =>
      simp only [h2] at h
      cases h3 : lib.mask_real (sss.q_raw m) mask
          (Basic.window_samples (w * sss.stream.stream_sample_rate)) with
      | error u => simp only [h3] at h; exact Except.noConfusion h
      | ok mq =>
        simp only [h3] at h
        cases h4 : lib.mask_cplx (sss.stream_s21_normalized m) mask
            (Basic.window_samples (w * sss.stream.stream_sample_rate)) with
        | error u => simp only [h4] at h; exact Except.noConfusion h
        | ok ms =>
          simp only [h4] at h
          exact ⟨mask, mx, mq, ms, rfl, h2, h3, h4,
            (Except.ok.inj h).symm⟩

/-- C3 (amended): deglitch always leaves the object fully defined.  The
glitch mask has the shape of x_raw and is produced by the despike
MAD-thresholding call with a window of int(2 ** ceil(log2(window_in_seconds
times the stream sample rate))) samples, which is the smallest power of two
at least that product whenever the product is at least one sample (below one
the int truncation yields 0); number_of_masked_samples is the sum of the
mask;
on success x, q, and the deglitched normalized stream are the three masked
series, and on any exception in the try block the mask is all False, the
count is 0, and the three series equal x_raw, q_raw, and
stream_s21_normalized unchanged. -/
theorem C3_deglitch_defined_state (lib : Basic.DespikeLib)
    (m : Basic.FitModel) (sss : Basic.SingleSweepStream)
    (threshold w : ℚ) (e : ℕ)
    (hlib : ∀ xs t wdw ext bm,
      lib.deglitch_mask_mad xs t wdw ext = Except.ok bm →
      bm.length = xs.length) :
    (Basic.deglitch lib m sss threshold w e).glitch_mask.length =
      (sss.x_raw m).length ∧
    (Basic.deglitch lib m sss threshold w e).number_of_masked_samples =
      (Basic.deglitch lib m sss threshold w e).glitch_mask.countP id ∧
    ((∃ R, Basic.deglitchTry lib m sss threshold w e = Except.ok R ∧
        Basic.deglitch lib m sss threshold w e = R ∧
        lib.deglitch_mask_mad (sss.x_raw m) threshold
          (Basic.window_samples (w * sss.stream.stream_sample_rate)) e =
          Except.ok R.glitch_mask ∧
        lib.mask_real (sss.x_raw m) R.glitch_mask
          (Basic.window_samples (w * sss.stream.stream_sample_rate)) =
          Except.ok R.x ∧
        lib.mask_real (sss.q_raw m) R.glitch_mask
          (Basic.window_samples (w * sss.stream.stream_sample_rate)) =
          Except.ok R.q ∧
        lib.mask_cplx (sss.stream_s21_normalized m) R.glitch_mask
          (Basic.window_samples (w * sss.stream.stream_sample_rate)) =
          Except.ok R.stream_s21_normalized_deglitched) ∨
      (∃ u, Basic.deglitchTry lib m sss threshold w e = Except.error u ∧
        Basic.deglitch lib m sss threshold w e =
          { glitch_mask := List.replicate (sss.x_raw m).length false
            number_of_masked_samples := 0
            x := sss.x_raw m, q := sss.q_raw m
            stream_s21_normalized_deglitched :=
              sss.stream_s21_normalized m })) ∧
    (1 ≤ w * sss.stream.stream_sample_rate →
      (∃ j : ℕ, Basic.window_samples (w * sss.stream.stream_sample_rate) =
        2 ^ j) ∧
      w * sss.stream.stream_sample_rate ≤
        (Basic.window_samples (w * sss.stream.stream_sample_rate) : ℚ) ∧
      (∀ k : ℕ, w * sss.stream.stream_sample_rate ≤ (2 : ℚ) ^ k →
        Basic.window_samples (w * sss.stream.stream_sample_rate) ≤ 2 ^ k)) := by
  have hspec := window_samples_spec (w * sss.stream.stream_sample_rate)
  cases hT : Basic.deglitchTry lib m sss threshold w e with
  | error u =>
    have hD : Basic.deglitch lib m sss threshold w e =
        { glitch_mask := List.replicate (sss.x_raw m).length false
          number_of_masked_samples := 0
          x := sss.x_raw m, q := sss.q_raw m
          stream_s21_normalized_deglitched :=
            sss.stream_s21_normalized m } := by
      unfold Basic.deglitch
      rw [hT]
    refine ⟨?_, ?_, Or.inr ⟨u, rfl, hD⟩, hspec⟩
    · rw [hD]; simp
    · rw [hD]; simp [countP_id_replicate_false]
  | ok R =>
    have hD : Basic.deglitch lib m sss threshold w e = R := by
      unfold Basic.deglitch
      rw [hT]
    obtain ⟨mask, mx, mq, ms, h1, h2, h3, h4, hR⟩ :=
      deglitchTry_ok_elim lib m sss threshold w e R hT
    subst hR
    refine ⟨?_, ?_, Or.inl ⟨_, rfl, hD, h1, h2, h3, h4⟩, hspec⟩
    · rw [hD]
      exact hlib _ _ _ _ _ h1
    · rw [hD]

/-- Witness for C3 at the concrete four-sample stream with the trivial
despike library and the default deglitch arguments. -/
theorem C3_deglitch_defined_state_witness :
    (Basic.deglitch Basic.trivDespike Basic.trivModel Basic.sss4
        8 1 50).glitch_mask.length =
      (Basic.sss4.x_raw Basic.trivModel).length ∧
    (∃ j : ℕ, Basic.window_samples
      (1 * Basic.sss4.stream.stream_sample_rate) = 2 ^ j) := by
  have h := C3_deglitch_defined_state Basic.trivDespike Basic.trivModel
    Basic.sss4 8 1 50
    (by
      intro xs t wdw ext bm hbm
      have hb := Except.ok.inj hbm
      rw [← hb]
      simp)
  exact ⟨h.1, (h.2.2.2 (by norm_num [Basic.sss4, Basic.stream4])).1⟩

/-- Multiplying by a power of ten shifts the integer base-10 logarithm. -/
theorem log10_shift {y : ℚ} (hy : 0 < y) (n : ℕ) :
    Int.log 10 ((10 : ℚ) ^ n * y) = n + Int.log 10 y := by
  have hb : (1 : ℕ) < 10 := by norm_num
  have hpos : (0 : ℚ) < (10 : ℚ) ^ n * y := by positivity
  apply le_antisymm
  · have h1 : (10 : ℚ) ^ n * y <
        ((10 : ℕ) : ℚ) ^ ((n : ℤ) + (Int.log 10 y + 1)) := by
      rw [zpow_add₀ (by norm_num : ((10 : ℕ) : ℚ) ≠ 0), zpow_natCast]
      push_cast
      exact mul_lt_mul_of_pos_left (Int.lt_zpow_succ_log_self hb y)
        (by positivity)
    have h2 := (Int.lt_zpow_iff_log_lt hb hpos).mp h1
    omega
  · have h1 : ((10 : ℕ) : ℚ) ^ ((n : ℤ) + Int.log 10 y) ≤
        (10 : ℚ) ^ n * y := by
      rw [zpow_add₀ (by norm_num : ((10 : ℕ) : ℚ) ≠ 0), zpow_natCast]
      push_cast
      exact mul_le_mul_of_nonneg_left (Int.zpow_log_le_self hb hy)
        (by positivity)
    exact (Int.zpow_le_iff_le_log hb hpos).mp h1

/-- Frequencies one decade apart land bins_per_decade bins apart. -/
theorem binIdx_decade (bpd : ℕ) {x : ℚ} (hx : 0 < x) :
    Basic.binIdx bpd (10 * x) = Basic.binIdx bpd x + bpd := by
  unfold Basic.binIdx
  rw [mul_pow, log10_shift (by positivity) bpd]
  ring

/-- The bin index is monotone in the frequency. -/
theorem binIdx_mono (bpd : ℕ) {a b : ℚ} (ha : 0 < a) (hab : a ≤ b) :
    Basic.binIdx bpd a ≤ Basic.binIdx bpd b :=
  Int.log_mono_right (pow_pos ha bpd) (pow_le_pow_left₀ ha.le hab bpd)

/-- For streams of at least eight samples the default NFFT is the power of
two with exponent floor(log2 size) - 3. -/
theorem nfft_default_of_ge (n : ℕ) (hn : 8 ≤ n) :
    Basic.nfft_default n = 2 ^ (Nat.log 2 n - 3) := by
  have hn0 : n ≠ 0 := by omega
  have hl : 3 ≤ Nat.log 2 n := by
    rw [← Nat.pow_le_iff_le_log (by norm_num) hn0]
    simpa using hn
  simp [Basic.nfft_default, hn0, hl]

/-- C7 counterexample: for a stream of four samples, set_pca with NFFT None
passes int(2 ** (floor(log2 4) - 3)) = 0 samples per chunk to pca_noise,
exhibited by a pca_noise that echoes its NFFT argument, whereas the value
2 ^ (floor(log2 4) - 3) named by the claim is the fraction one half. -/
theorem C7_counterexample_nfft_small_stream :
    (Basic.set_pca Basic.echoIq Basic.trivDespike Basic.trivModel Basic.sss4
        none true).pca_S_frequency = [(Basic.nfft_default 4 : ℚ)] ∧
    Basic.nfft_default 4 = 0 ∧
    ((Basic.nfft_default 4 : ℚ) ≠
      (2 : ℚ) ^ ((Nat.log 2 4 : ℤ) - 3)) := by
  have hl : Nat.log 2 4 = 2 := by
    rw [show (4 : ℕ) = 2 ^ 2 from rfl, Nat.log_pow (by norm_num)]
  have h0 : Basic.nfft_default 4 = 0 := by
    simp [Basic.nfft_default, hl]
  refine ⟨rfl, h0, ?_⟩
  rw [h0, hl]
  norm_num

/-- C7 (amended): set_pca with NFFT None uses the default
int(2 ** (floor(log2 stream.s21_raw.size) - 3)), which equals
2 ^ (floor(log2 size) - 3) whenever the stream holds at least eight samples;
the pca input series is x + 1j * y zipped from x and y with y = q / 2; and
the first and second eigenvalue rows and the angles of iqnoise.pca_noise are
stored as pca_S_00, pca_S_11, and pca_angles. -/
theorem C7_set_pca_wiring (iq : Basic.IqnoiseLib) (lib : Basic.DespikeLib)
    (m : Basic.FitModel) (sss : Basic.SingleSweepStream) (NFFT : Option ℕ)
    (binned : Bool) :
    Basic.set_pca iq lib m sss none binned =
      Basic.set_pca iq lib m sss
        (some (Basic.nfft_default sss.stream.s21_raw.length)) binned ∧
    Basic.SingleSweepStream.y lib m sss =
      (Basic.SingleSweepStream.q lib m sss).map
        (Option.map (fun v => v / 2)) ∧
    (Basic.set_pca iq lib m sss NFFT binned).pca_S_frequency =
      (iq.pca_noise ((Basic.SingleSweepStream.x lib m sss).zip
          (Basic.SingleSweepStream.y lib m sss))
        (NFFT.getD (Basic.nfft_default sss.stream.s21_raw.length))
        sss.stream.stream_sample_rate binned).fr ∧
    (Basic.set_pca iq lib m sss NFFT binned).pca_S_00 =
      (iq.pca_noise ((Basic.SingleSweepStream.x lib m sss).zip
          (Basic.SingleSweepStream.y lib m sss))
        (NFFT.getD (Basic.nfft_default sss.stream.s21_raw.length))
        sss.stream.stream_sample_rate binned).evals0 ∧
    (Basic.set_pca iq lib m sss NFFT binned).pca_S_11 =
      (iq.pca_noise ((Basic.SingleSweepStream.x lib m sss).zip
          (Basic.SingleSweepStream.y lib m sss))
        (NFFT.getD (Basic.nfft_default sss.stream.s21_raw.length))
        sss.stream.stream_sample_rate binned).evals1 ∧
    (Basic.set_pca iq lib m sss NFFT binned).pca_angles =
      (iq.pca_noise ((Basic.SingleSweepStream.x lib m sss).zip
          (Basic.SingleSweepStream.y lib m sss))
        (NFFT.getD (Basic.nfft_default sss.stream.s21_raw.length))
        sss.stream.stream_sample_rate binned).angles ∧
    (8 ≤ sss.stream.s21_raw.length →
      Basic.nfft_default sss.stream.s21_raw.length =
        2 ^ (Nat.log 2 sss.stream.s21_raw.length - 3)) := by
  refine ⟨rfl, rfl, rfl, rfl, rfl, rfl, ?_⟩
  exact nfft_default_of_ge _

/-- Witness for C7 at the eight-sample stream: the default NFFT formula
applies. -/
theorem C7_set_pca_wiring_witness :
    Basic.nfft_default Basic.sss8.stream.s21_raw.length =
      2 ^ (Nat.log 2 Basic.sss8.stream.s21_raw.length - 3) := by
  exact (C7_set_pca_wiring Basic.echoIq Basic.trivDespike Basic.trivModel
    Basic.sss8 none true).2.2.2.2.2.2 (by decide)

/-- C2: with binned True, set_S drops the DC and Nyquist bins and passes the
frequencies and the three spectra with their variances through the log
binning with bins_per_decade bins per decade; S_counts holds the number of
raw spectral samples in each bin and S_edges the bin edges; the bin index is
monotone in frequency and frequencies a decade apart lie bins_per_decade
bins apart, so the bin widths grow with frequency.  With binned False,
S_edges is None, S_counts is an array of ones the size of the frequency
array, and S_frequency is the unbinned frequency array. -/
theorem C2_set_S_binning (ml : Basic.MlabLib) (lib : Basic.DespikeLib)
    (m : Basic.FitModel) (sss : Basic.SingleSweepStream)
    (NFFT nov bpd : ℕ) :
    (Basic.set_S ml lib m sss (some NFFT) (some nov) false bpd).S_edges =
      none ∧
    (Basic.set_S ml lib m sss (some NFFT) (some nov) false bpd).S_counts =
      List.replicate (Basic.dropEnds (ml.csd
        (Basic.SingleSweepStream.x lib m sss)
        (Basic.SingleSweepStream.q lib m sss)
        sss.stream.stream_sample_rate NFFT nov).2).length 1 ∧
    (Basic.set_S ml lib m sss (some NFFT) (some nov) false bpd).S_frequency =
      Basic.dropEnds (ml.csd (Basic.SingleSweepStream.x lib m sss)
        (Basic.SingleSweepStream.q lib m sss)
        sss.stream.stream_sample_rate NFFT nov).2 ∧
    (Basic.set_S ml lib m sss (some NFFT) (some nov) true bpd).S_edges =
      some (Basic.log_bin_edges bpd (Basic.dropEnds (ml.csd
        (Basic.SingleSweepStream.x lib m sss)
        (Basic.SingleSweepStream.q lib m sss)
        sss.stream.stream_sample_rate NFFT nov).2)) ∧
    (Basic.set_S ml lib m sss (some NFFT) (some nov) true bpd).S_counts =
      Basic.log_bin_counts bpd (Basic.dropEnds (ml.csd
        (Basic.SingleSweepStream.x lib m sss)
        (Basic.SingleSweepStream.q lib m sss)
        sss.stream.stream_sample_rate NFFT nov).2) ∧
    (Basic.set_S ml lib m sss (some NFFT) (some nov) true bpd).S_frequency =
      Basic.log_bin_freq bpd (Basic.dropEnds (ml.csd
        (Basic.SingleSweepStream.x lib m sss)
        (Basic.SingleSweepStream.q lib m sss)
        sss.stream.stream_sample_rate NFFT nov).2) ∧
    (Basic.set_S ml lib m sss (some NFFT) (some nov) true bpd).S_xx =
      Basic.log_bin_data bpd (Basic.dropEnds (ml.csd
        (Basic.SingleSweepStream.x lib m sss)
        (Basic.SingleSweepStream.q lib m sss)
        sss.stream.stream_sample_rate NFFT nov).2)
        (Basic.dropEnds (ml.psd (Basic.SingleSweepStream.x lib m sss)
          sss.stream.stream_sample_rate NFFT nov).1) ∧
    (Basic.set_S ml lib m sss (some NFFT) (some nov) true bpd).S_qq =
      Basic.log_bin_data bpd (Basic.dropEnds (ml.csd
        (Basic.SingleSweepStream.x lib m sss)
        (Basic.SingleSweepStream.q lib m sss)
        sss.stream.stream_sample_rate NFFT nov).2)
        (Basic.dropEnds (ml.psd (Basic.SingleSweepStream.q lib m sss)
          sss.stream.stream_sample_rate NFFT nov).1) ∧
    (Basic.set_S ml lib m sss (some NFFT) (some nov) true bpd).S_xq =
      Basic.log_bin_data_c bpd (Basic.dropEnds (ml.csd
        (Basic.SingleSweepStream.x lib m sss)
        (Basic.SingleSweepStream.q lib m sss)
        sss.stream.stream_sample_rate NFFT nov).2)
        (Basic.dropEnds (ml.csd (Basic.SingleSweepStream.x lib m sss)
          (Basic.SingleSweepStream.q lib m sss)
          sss.stream.stream_sample_rate NFFT nov).1) ∧
    (Basic.set_S ml lib m sss (some NFFT) (some nov) true bpd).S_xx_variance =
      Basic.log_bin_variance bpd (Basic.dropEnds (ml.csd
        (Basic.SingleSweepStream.x lib m sss)
        (Basic.SingleSweepStream.q lib m sss)
        sss.stream.stream_sample_rate NFFT nov).2)
        ((Basic.dropEnds (ml.psd (Basic.SingleSweepStream.x lib m sss)
          sss.stream.stream_sample_rate NFFT nov).1).map (fun s =>
            s ^ 2 / ((2 * (Basic.SingleSweepStream.x lib m sss).length /
              NFFT : ℕ) : ℚ))) ∧
    (Basic.set_S ml lib m sss (some NFFT) (some nov) true bpd).S_qq_variance =
      Basic.log_bin_variance bpd (Basic.dropEnds (ml.csd
        (Basic.SingleSweepStream.x lib m sss)
        (Basic.SingleSweepStream.q lib m sss)
        sss.stream.stream_sample_rate NFFT nov).2)
        ((Basic.dropEnds (ml.psd (Basic.SingleSweepStream.q lib m sss)
          sss.stream.stream_sample_rate NFFT nov).1).map (fun s =>
            s ^ 2 / ((2 * (Basic.SingleSweepStream.x lib m sss).length /
              NFFT : ℕ) : ℚ))) ∧
    (Basic.set_S ml lib m sss (some NFFT) (some nov) true bpd).S_xq_variance =
      Basic.log_bin_variance_c bpd (Basic.dropEnds (ml.csd
        (Basic.SingleSweepStream.x lib m sss)
        (Basic.SingleSweepStream.q lib m sss)
        sss.stream.stream_sample_rate NFFT nov).2)
        ((Basic.dropEnds (ml.csd (Basic.SingleSweepStream.x lib m sss)
          (Basic.SingleSweepStream.q lib m sss)
          sss.stream.stream_sample_rate NFFT nov).1).map (fun z =>
            Basic.cdivN (Basic.cmul z z)
              (2 * (Basic.SingleSweepStream.x lib m sss).length / NFFT))) ∧
    (∀ (f : List ℚ) (j : ℕ), j < (Basic.binList bpd f).length →
      (Basic.log_bin_counts bpd f).getD j 0 =
        f.countP (fun v => Basic.binIdx bpd v =
          (Basic.binList bpd f).getD j 0)) ∧
    (∀ a b : ℚ, 0 < a → a ≤ b →
      Basic.binIdx bpd a ≤ Basic.binIdx bpd b) ∧
    (∀ z : ℚ, 0 < z →
      Basic.binIdx bpd (10 * z) = Basic.binIdx bpd z + bpd) := by
  refine ⟨rfl, rfl, rfl, rfl, rfl, rfl, rfl, rfl, rfl, rfl, rfl, rfl,
    ?_, ?_, ?_⟩
  · intro f j hj
    exact getD_map_of_lt _ _ 0 0 hj
  · intro a b ha hab
    exact binIdx_mono bpd ha hab
  · intro z hz
    exact binIdx_decade bpd hz

/-- Witness for C2: the bin index respects order and the decade shift at
concrete frequencies, for 30 bins per decade. -/
theorem C2_set_S_binning_witness :
    Basic.binIdx 30 1 ≤ Basic.binIdx 30 2 ∧
    Basic.binIdx 30 (10 * 1) = Basic.binIdx 30 1 + 30 := by
  have h := C2_set_S_binning Basic.trivMlab Basic.trivDespike
    Basic.trivModel Basic.sss4 4 2 30
  exact ⟨h.2.2.2.2.2.2.2.2.2.2.2.2.2.1 1 2 (by norm_num) (by norm_num),
    h.2.2.2.2.2.2.2.2.2.2.2.2.2.2 1 (by norm_num)⟩

/-- C3 counterexample: calling deglitch with window_in_seconds 1/2 on a
stream with unit sample rate makes the window computation int(2 ** ceil(log2
(1/2))) = int(1/2) = 0, which is not the smallest power of two at least the
product, and not at least the product at all; the smallest such power of two
is 1.  The claim states the smallest-power-of-two window for every call. -/
theorem C3_counterexample_window_truncation :
    Basic.window_samples
      ((1 / 2 : ℚ) * Basic.sss4.stream.stream_sample_rate) = 0 ∧
    ¬ ((1 / 2 : ℚ) * Basic.sss4.stream.stream_sample_rate ≤
      (Basic.window_samples
        ((1 / 2 : ℚ) * Basic.sss4.stream.stream_sample_rate) : ℚ)) ∧
    (1 / 2 : ℚ) * Basic.sss4.stream.stream_sample_rate ≤ ((2 : ℕ) ^ (0 : ℕ) : ℚ) := by
  have hv : (1 / 2 : ℚ) * Basic.sss4.stream.stream_sample_rate = 1 / 2 := by
    norm_num [Basic.sss4, Basic.stream4]
  have hlog : Nat.log 2 2 = 1 :=
    Nat.log_eq_of_pow_le_of_lt_pow (by norm_num) (by norm_num)
  have hclog : Int.clog 2 ((1 : ℚ) / 2) = -1 := by
    rw [Int.clog_of_right_le_one 2 (by norm_num)]
    norm_num [hlog]
  have hws : Basic.window_samples
      ((1 / 2 : ℚ) * Basic.sss4.stream.stream_sample_rate) = 0 := by
    rw [hv]
    unfold Basic.window_samples
    rw [hclog]
    norm_num
  refine ⟨hws, ?_, ?_⟩
  · rw [hws, hv]
    norm_num
  · rw [hv]
    norm_num
